import Mathlib

/-!
Verification of the BER tag codec of the `rust-ldap` repository.

The definitions below embed `src/protocol/src/ber/common.rs` shallowly:
Rust `u8`/`u64` values become `Nat`, the `i64` tag numbers become `Int`,
`Vec<u8>` becomes `List Nat`, and a function that can reach Rust's
`unreachable!()` returns in the `PanicOr` monad so that aborting and
returning are distinguishable outcomes.  The encoder and decoder, whose
bodies are not part of the provided sources, are modelled from the
specification and are marked as such in their doc comments.
-/

namespace common

/-- The error type of `protocol/src/ber/error.rs` (the file itself is not in
the provided sources; the spec's section 7 lists `InvalidASN1` as the only
decode-side variant, and `common.rs` constructs exactly this variant). -/
inductive ASN1Error where
  | InvalidASN1 : ASN1Error
deriving DecidableEq, Repr

/-- Outcome of running Rust code that may hit a `panic!`/`unreachable!`:
either the process aborts (`panic`) or the value is produced (`value`). -/
inductive PanicOr (α : Type) where
  | panic : PanicOr α
  | value : α → PanicOr α
deriving DecidableEq, Repr

/-- `enum UniversalTypes` of `common.rs`: all defined universal type codes,
with discriminants 0..13 and 16..30. -/
inductive UniversalTypes where
  | Eoc | Boolean | Integer | BitString | OctetString | Null
  | ObjectIdentifier | ObjectDescriptor | External | Real | Enumerated
  | EmbeddedPdv | Utf8String | RelativeOid | Sequence | Set
  | NumericString | PrintableString | T61String | VideotexString
  | Ia5String | UtcTime | GeneralizedTime | GraphicString | VisibleString
  | GeneralString | UniversalString | CharacterString | BmpString
deriving DecidableEq, Repr

/-- The numeric discriminant each `UniversalTypes` variant carries in the
Rust enum declaration. -/
def UniversalTypes.toNumber : UniversalTypes → Nat
  | .Eoc => 0 | .Boolean => 1 | .Integer => 2 | .BitString => 3
  | .OctetString => 4 | .Null => 5 | .ObjectIdentifier => 6
  | .ObjectDescriptor => 7 | .External => 8 | .Real => 9
  | .Enumerated => 10 | .EmbeddedPdv => 11 | .Utf8String => 12
  | .RelativeOid => 13 | .Sequence => 16 | .Set => 17
  | .NumericString => 18 | .PrintableString => 19 | .T61String => 20
  | .VideotexString => 21 | .Ia5String => 22 | .UtcTime => 23
  | .GeneralizedTime => 24 | .GraphicString => 25 | .VisibleString => 26
  | .GeneralString => 27 | .UniversalString => 28 | .CharacterString => 29
  | .BmpString => 30

/-- `UniversalTypes::from_u8` of `common.rs`.  The source matches the 29
defined codes and ends in `_ => unreachable!()`, so every undefined code
aborts the process instead of returning the `Err` promised by the `Result`
return type. -/
def UniversalTypes.from_u8 (v : Nat) : PanicOr (Except ASN1Error UniversalTypes) :=
  match v with
  | 0 => .value (.ok .Eoc)
  | 1 => .value (.ok .Boolean)
  | 2 => .value (.ok .Integer)
  | 3 => .value (.ok .BitString)
  | 4 => .value (.ok .OctetString)
  | 5 => .value (.ok .Null)
  | 6 => .value (.ok .ObjectIdentifier)
  | 7 => .value (.ok .ObjectDescriptor)
  | 8 => .value (.ok .External)
  | 9 => .value (.ok .Real)
  | 10 => .value (.ok .Enumerated)
  | 11 => .value (.ok .EmbeddedPdv)
  | 12 => .value (.ok .Utf8String)
  | 13 => .value (.ok .RelativeOid)
  | 16 => .value (.ok .Sequence)
  | 17 => .value (.ok .Set)
  | 18 => .value (.ok .NumericString)
  | 19 => .value (.ok .PrintableString)
  | 20 => .value (.ok .T61String)
  | 21 => .value (.ok .VideotexString)
  | 22 => .value (.ok .Ia5String)
  | 23 => .value (.ok .UtcTime)
  | 24 => .value (.ok .GeneralizedTime)
  | 25 => .value (.ok .GraphicString)
  | 26 => .value (.ok .VisibleString)
  | 27 => .value (.ok .GeneralString)
  | 28 => .value (.ok .UniversalString)
  | 29 => .value (.ok .CharacterString)
  | 30 => .value (.ok .BmpString)
  | _ => .panic

/-- `enum Class` of `common.rs`: the tag class, carrying the universal type
for class `Universal` and the raw `i64` tag number otherwise. -/
inductive Class where
  | Universal : UniversalTypes → Class
  | Application : Int → Class
  | ContextSpecific : Int → Class
  | Private : Int → Class
deriving DecidableEq, Repr

/-- `Class::construct` of `common.rs`.  The Rust source casts `number as u8`
before the universal lookup (`(number.emod 256).toNat` is the value of that
cast), forwards the lookup's outcome with `try!`, and returns
`Err(InvalidASN1)` for any class selector outside `0..=3`. -/
def Class.construct (c : Nat) (number : Int) : PanicOr (Except ASN1Error Class) :=
  match c with
  | 0 =>
    match UniversalTypes.from_u8 (number.emod 256).toNat with
    | .panic => .panic
    | .value (.ok t) => .value (.ok (Class.Universal t))
    | .value (.error e) => .value (.error e)
  | 1 => .value (.ok (Class.Application number))
  | 2 => .value (.ok (Class.ContextSpecific number))
  | 3 => .value (.ok (Class.Private number))
  | _ => .value (.error ASN1Error.InvalidASN1)

/-- `enum Structure` of `common.rs`: primitive or constructed payload. -/
inductive Structure where
  | Primitive : Structure
  | Constructed : Structure
deriving DecidableEq, Repr

/-- `struct Type` of `common.rs`.  Its Rust fields are named `class` and
`structure`; both words are Lean keywords, so the fields are called
`tagClass` and `tagStructure` here. -/
structure Type' where
  tagClass : Class
  tagStructure : Structure
deriving DecidableEq, Repr

mutual
/-- `enum Payload` of `common.rs`: raw bytes or a list of child tags. -/
inductive Payload where
  | Primitive : List Nat → Payload
  | Constructed : List Tag → Payload

/-- `struct Tag` of `common.rs`: type, declared length, payload, and the
cached total encoded size (type bytes + length bytes + payload bytes). -/
inductive Tag where
  | mk : Type' → Nat → Payload → Nat → Tag
end

/-- Field `_type` of `Tag`. -/
def Tag._type : Tag → Type'
  | .mk t _ _ _ => t

/-- Field `_length` of `Tag` (the declared payload length). -/
def Tag._length : Tag → Nat
  | .mk _ l _ _ => l

/-- Field `_value` of `Tag` (the payload). -/
def Tag._value : Tag → Payload
  | .mk _ _ v _ => v

/-- Field `size` of `Tag` (the full TLV byte footprint). -/
def Tag.size : Tag → Nat
  | .mk _ _ _ s => s

/-- `Payload::len` of `common.rs`: byte count for `Primitive`, and the
accumulated `l += tag.size` loop over the children for `Constructed`. -/
def Payload.len : Payload → Nat
  | .Primitive v => v.length
  | .Constructed ts => ts.foldl (fun l t => l + t.size) 0

/-- The `do { len += 1; tag >>= 7; } while tag > 0` loop of
`calculate_len`, counted as the number of iterations executed when the
loop is entered with value `t`. -/
def base128Iters (t : Nat) : Nat :=
  if _h : t / 128 = 0 then 1 else 1 + base128Iters (t / 128)
decreasing_by
  omega

/-- The `do { len >>= 8; length += 1; } while len > 0` loop of
`calculate_len`, counted as the number of iterations executed when the
loop is entered with value `t`. -/
def base256Iters (t : Nat) : Nat :=
  if _h : t / 256 = 0 then 1 else 1 + base256Iters (t / 256)
decreasing_by
  omega

/-- The class/number byte count that `calculate_len` adds first: 1 for
`Universal`, and for the other classes 1 plus one byte per loop iteration
when the signed number exceeds 127. -/
def typeByteCount : Class → Nat
  | .Universal _ => 1
  | .Application tag | .ContextSpecific tag | .Private tag =>
    if 127 < tag then 1 + base128Iters tag.toNat else 1

/-- The length-field byte count that `calculate_len` adds second: one byte
in the short form (`pllen < 128`), and one byte per loop iteration plus a
final count byte otherwise. -/
def lengthFieldSize (pllen : Nat) : Nat :=
  if pllen < 128 then 1 else base256Iters pllen + 1

/-- `calculate_len` of `common.rs`: the accumulator starts at 0, gains the
type byte count, then the length-field byte count, then the payload
length itself. -/
def calculate_len (tagtype : Type') (pllen : Nat) : Nat :=
  typeByteCount tagtype.tagClass + lengthFieldSize pllen + pllen

/-- Free function `construct` of `common.rs`: derives the structure from
the payload variant, takes the payload's own length, and caches
`calculate_len` as the tag's size. -/
def construct (c : Class) (payload : Payload) : Tag :=
  let tagtype : Type' :=
    { tagClass := c
      tagStructure :=
        match payload with
        | .Primitive _ => Structure.Primitive
        | .Constructed _ => Structure.Constructed }
  let pllen := payload.len
  let taglen := calculate_len tagtype pllen
  Tag.mk tagtype pllen payload taglen

/-- Bit length written as the claims state it, `Nat.size`:
`Nat.size n` is the number of bits of `n` (0 for 0). -/
def bitLength (n : Nat) : Nat := Nat.size n

/-- The type-byte count exactly as the claims word it: 1 byte for a
Universal class; for the other classes 1 byte when the number is at most
127, and `1 + ceil(bitLength(number) / 7)` bytes when it exceeds 127. -/
def typeBytesSpec : Class → Nat
  | .Universal _ => 1
  | .Application n | .ContextSpecific n | .Private n =>
    if n ≤ 127 then 1 else 1 + (bitLength n.toNat + 6) / 7

/-- The length-field byte count exactly as the claims word it: 1 byte when
`pllen < 128`, otherwise one count byte plus the byte count of the minimal
big-endian representation, `ceil(bitLength(pllen) / 8)`. -/
def lengthBytesSpec (pllen : Nat) : Nat :=
  if pllen < 128 then 1 else 1 + (bitLength pllen + 7) / 8

/-- Lookup table used only to state the round-trip of defined universal
codes: the variant whose discriminant is the given defined code. -/
def uniOfCode (c : Nat) : UniversalTypes :=
  match c with
  | 0 => .Eoc | 1 => .Boolean | 2 => .Integer | 3 => .BitString
  | 4 => .OctetString | 5 => .Null | 6 => .ObjectIdentifier
  | 7 => .ObjectDescriptor | 8 => .External | 9 => .Real
  | 10 => .Enumerated | 11 => .EmbeddedPdv | 12 => .Utf8String
  | 13 => .RelativeOid | 16 => .Sequence | 17 => .Set
  | 18 => .NumericString | 19 => .PrintableString | 20 => .T61String
  | 21 => .VideotexString | 22 => .Ia5String | 23 => .UtcTime
  | 24 => .GeneralizedTime | 25 => .GraphicString | 26 => .VisibleString
  | 27 => .GeneralString | 28 => .UniversalString | 29 => .CharacterString
  | 30 => .BmpString | _ => .Eoc

end common

namespace ber

open common

/-- The 2-bit class selector of the first type byte (spec section 6). -/
def classBits : common.Class → Nat
  | .Universal _ => 0
  | .Application _ => 1
  | .ContextSpecific _ => 2
  | .Private _ => 3

/-- The tag number a class carries: the discriminant for Universal, the
stored `i64` otherwise. -/
def classNumber : common.Class → Int
  | .Universal t => (t.toNumber : Int)
  | .Application n | .ContextSpecific n | .Private n => n

/-- The structure bit of the first type byte (spec section 6). -/
def structureBit : Structure → Nat
  | .Primitive => 0
  | .Constructed => 1

/-- Whether a class is the Universal class. -/
def isUniversalClass : common.Class → Bool
  | .Universal _ => true
  | _ => false

/-- The base-128 digits of a number, most significant group first
(minimal: a single digit for numbers below 128). -/
def base128Digits (n : Nat) : List Nat :=
  if _h : n < 128 then [n] else base128Digits (n / 128) ++ [n % 128]
decreasing_by
  omega

/-- Sets the continuation bit 0x80 on every digit except the last. -/
def withContinuation : List Nat → List Nat
  | [] => []
  | [d] => [d]
  | d :: rest => (128 + d) :: withContinuation rest

/-- Modelled from the spec: the type byte(s) of one tag (spec section 4.4;
`ber::encode` is not in the provided sources).  The first byte packs
`(class bits << 6) | (structure bit << 5) | number-or-0x1F`; the number is
embedded directly when the class is Universal or the number is at most 30,
otherwise the low five bits are the 0x1F escape and the number follows as
base-128 continuation bytes, most significant group first. -/
def encodeTypeBytes (t : Type') : List Nat :=
  let c := classBits t.tagClass
  let s := structureBit t.tagStructure
  let n := classNumber t.tagClass
  if isUniversalClass t.tagClass = true ∨ n ≤ 30 then
    [c * 64 + s * 32 + n.toNat]
  else
    (c * 64 + s * 32 + 31) :: withContinuation (base128Digits n.toNat)

/-- The base-256 digits of a number, most significant first (minimal: a
single digit for numbers below 256). -/
def base256Digits (n : Nat) : List Nat :=
  if _h : n < 256 then [n] else base256Digits (n / 256) ++ [n % 256]
decreasing_by
  omega

/-- Modelled from the spec: the length byte(s) of one tag (spec section
4.4).  Short form below 128; otherwise a leading byte `0x80 | count`
followed by the minimal big-endian representation of the length. -/
def encodeLengthBytes (len : Nat) : List Nat :=
  if len < 128 then [len]
  else (128 + (base256Digits len).length) :: base256Digits len

mutual
/-- Modelled from the spec: serialisation of one tag (spec section 4.4;
`Encode_single`): type bytes, then length bytes of the declared length,
then the payload bytes. -/
def encode_single : Tag → List Nat
  | .mk ty len v _ => encodeTypeBytes ty ++ encodeLengthBytes len ++ encodePayloadBytes v

/-- Modelled from the spec: payload serialisation — raw bytes for a
primitive payload, each child tag in order for a constructed one. -/
def encodePayloadBytes : Payload → List Nat
  | .Primitive v => v
  | .Constructed ts => encodeTagList ts

/-- Modelled from the spec: serialisation of a list of sibling tags. -/
def encodeTagList : List Tag → List Nat
  | [] => []
  | t :: ts => encode_single t ++ encodeTagList ts
end

/-- Modelled from the spec: section 4.1's `UniversalTypeFromCode`, the
typed-failure lookup the decoder relies on (`fails with InvalidASN1 for
any code not in the defined set`). -/
def universalFromCodeSpec (v : Nat) : Except ASN1Error UniversalTypes :=
  match UniversalTypes.from_u8 v with
  | .value r => r
  | .panic => .error ASN1Error.InvalidASN1

/-- Modelled from the spec: section 4.1's `ClassConstruct` as the decoder
uses it — class 0 delegates to the universal lookup on the low byte of the
number and propagates its typed failure, classes 1 to 3 accept any number,
anything else is `InvalidASN1`. -/
def classConstructSpec (c : Nat) (number : Int) : Except ASN1Error common.Class :=
  match c with
  | 0 =>
    match universalFromCodeSpec (number.emod 256).toNat with
    | .ok t => .ok (Class.Universal t)
    | .error e => .error e
  | 1 => .ok (Class.Application number)
  | 2 => .ok (Class.ContextSpecific number)
  | 3 => .ok (Class.Private number)
  | _ => .error ASN1Error.InvalidASN1

/-- Modelled from the spec: base-128 continuation parsing (spec section
4.5 step 1) — accumulate 7 bits per byte, masking the continuation bit,
until a byte without the continuation bit; an exhausted buffer is a typed
failure.  Returns the number and the count of bytes consumed. -/
def parseBase128 : List Nat → Nat → Except ASN1Error (Nat × Nat)
  | [], _ => .error ASN1Error.InvalidASN1
  | b :: rest, acc =>
    if b < 128 then .ok (acc * 128 + b, 1)
    else
      match parseBase128 rest (acc * 128 + b % 128) with
      | .error e => .error e
      | .ok (n, k) => .ok (n, k + 1)

/-- Modelled from the spec: the type byte(s) parse (spec section 4.5 step
1).  Returns class selector, structure bit, tag number and the count of
bytes consumed. -/
def parseTypeNumber : List Nat → Except ASN1Error (Nat × Nat × Int × Nat)
  | [] => .error ASN1Error.InvalidASN1
  | b :: rest =>
    let c := b / 64
    let s := b / 32 % 2
    let low := b % 32
    if low < 31 then .ok (c, s, (low : Int), 1)
    else
      match parseBase128 rest 0 with
      | .error e => .error e
      | .ok (n, k) => .ok (c, s, (n : Int), 1 + k)

/-- Modelled from the spec: big-endian read of a fixed count of bytes; an
exhausted buffer is a typed failure. -/
def readBE : List Nat → Nat → Nat → Except ASN1Error Nat
  | _, 0, acc => .ok acc
  | [], _ + 1, _ => .error ASN1Error.InvalidASN1
  | b :: rest, k + 1, acc => readBE rest k (acc * 256 + b)

/-- Modelled from the spec: the length parse (spec section 4.5 step 2).
High bit clear: the low seven bits are the length.  High bit set: the low
seven bits count the following big-endian length bytes, and a count of 0
(the indefinite form) is an unsupported-form failure.  Returns the length
and the count of bytes consumed. -/
def parseLength : List Nat → Except ASN1Error (Nat × Nat)
  | [] => .error ASN1Error.InvalidASN1
  | b :: rest =>
    if b < 128 then .ok (b, 1)
    else
      let n := b - 128
      if n = 0 then .error ASN1Error.InvalidASN1
      else
        match readBE rest n 0 with
        | .error e => .error e
        | .ok len => .ok (len, 1 + n)

/-- Modelled from the spec: the child loop of a constructed payload (spec
section 4.5 step 3): decode children until the declared length is
consumed; a child whose size overruns the remaining declared length is a
framing failure.  `dec` decodes one child; the first argument bounds the
number of loop steps and is always given large enough that it cannot run
out before the declared length is consumed. -/
def runChildren (dec : List Nat → Except ASN1Error (Tag × Nat)) :
    Nat → List Nat → Nat → Except ASN1Error (List Tag)
  | 0, _, _ => .error ASN1Error.InvalidASN1
  | cfuel + 1, buf, remaining =>
    if remaining = 0 then .ok []
    else
      match dec buf with
      | .error e => .error e
      | .ok (t, k) =>
        if k ≤ remaining then
          match runChildren dec cfuel (buf.drop k) (remaining - k) with
          | .error e => .error e
          | .ok ts => .ok (t :: ts)
        else .error ASN1Error.InvalidASN1

/-- Modelled from the spec: decoding of one tag given a decoder for the
child tags (spec section 4.5 steps 1 to 4): parse the type bytes, the
length bytes, resolve the class, then read a primitive payload directly or
run the child loop; the returned tag's `size` is the count of bytes
actually consumed, which is also returned. -/
def decodeStep (dec : List Nat → Except ASN1Error (Tag × Nat))
    (buf : List Nat) : Except ASN1Error (Tag × Nat) :=
  match parseTypeNumber buf with
  | .error e => .error e
  | .ok (c, s, n, tk) =>
    match parseLength (buf.drop tk) with
    | .error e => .error e
    | .ok (len, lk) =>
      match classConstructSpec c n with
      | .error e => .error e
      | .ok cls =>
        let rest := (buf.drop tk).drop lk
        if s = 0 then
          if len ≤ rest.length then
            .ok (Tag.mk ⟨cls, .Primitive⟩ len (.Primitive (rest.take len)) (tk + lk + len),
                 tk + lk + len)
          else .error ASN1Error.InvalidASN1
        else
          match runChildren dec (len + 1) rest len with
          | .error e => .error e
          | .ok ts => .ok (Tag.mk ⟨cls, .Constructed⟩ len (.Constructed ts) (tk + lk + len),
                           tk + lk + len)

/-- Modelled from the spec: the recursive decoder, with the nesting depth
bounded by a step count that `decode` sets beyond any depth a buffer of
its length can contain. -/
def decodeTag : Nat → List Nat → Except ASN1Error (Tag × Nat)
  | 0 => fun _ => .error ASN1Error.InvalidASN1
  | fuel + 1 => decodeStep (decodeTag fuel)

/-- Modelled from the spec: `Decode` (spec section 4.5; `ber::decode` is
not in the provided sources): parse the first tag of the buffer and report
the count of bytes consumed. -/
def decode (buf : List Nat) : Except ASN1Error (Tag × Nat) :=
  decodeTag (buf.length + 1) buf

end ber

namespace common

/-- The concrete tag on which the encode/decode round trip loses the
`size` field: Application class, tag number 31, empty primitive payload. -/
def c2Tag : Tag := construct (Class.Application 31) (Payload.Primitive [])

/-- Dividing by `2 ^ k` removes exactly `k` bits from a number that has at
least `k` bits. -/
theorem size_div_pow {t k : Nat} (h : 2 ^ k ≤ t) :
    Nat.size (t / 2 ^ k) = Nat.size t - k := by
  have hpos : 0 < (2 : Nat) ^ k := pow_pos (by norm_num) k
  have key : ∀ m : Nat, Nat.size (t / 2 ^ k) ≤ m ↔ Nat.size t ≤ m + k := by
    intro m
    rw [Nat.size_le, Nat.size_le, Nat.div_lt_iff_lt_mul hpos, ← pow_add]
  have hk : k ≤ Nat.size t := by
    by_contra hc
    push_neg at hc
    have ht : t < 2 ^ k := Nat.size_le.mp (Nat.le_of_lt hc)
    omega
  have a1 : Nat.size (t / 2 ^ k) ≤ Nat.size t - k := (key _).mpr (by omega)
  have a2 : Nat.size t ≤ Nat.size (t / 2 ^ k) + k := (key _).mp le_rfl
  omega

/-- Closed form of the 7-bit shift loop: for a positive entry value it runs
once per 7-bit group, `ceil(bitLength t / 7)` times. -/
theorem base128Iters_closed {t : Nat} (h : 0 < t) :
    base128Iters t = (bitLength t + 6) / 7 := by
  induction t using Nat.strong_induction_on with
  | _ t ih =>
    rw [base128Iters]
    by_cases h128 : t < 128
    · rw [dif_pos (Nat.div_eq_of_lt h128)]
      have hs1 : 0 < Nat.size t := Nat.size_pos.mpr h
      have hs2 : Nat.size t ≤ 7 :=
        Nat.size_le.mpr (lt_of_lt_of_le h128 (by norm_num))
      unfold bitLength
      omega
    · push_neg at h128
      have hdiv : 1 ≤ t / 128 := (Nat.one_le_div_iff (by norm_num)).mpr h128
      rw [dif_neg (by omega)]
      have hlt : t / 128 < t := Nat.div_lt_self (by omega) (by norm_num)
      rw [ih _ hlt (by omega)]
      have hsd : Nat.size (t / 128) = Nat.size t - 7 := by
        have hb : (2 : Nat) ^ 7 ≤ t := le_trans (by norm_num) h128
        have := size_div_pow hb
        simpa using this
      have hs8 : 8 ≤ Nat.size t := by
        by_contra hc
        push_neg at hc
        have ht : t < 2 ^ 7 := Nat.size_le.mp (by omega)
        have : (2 : Nat) ^ 7 = 128 := by norm_num
        omega
      unfold bitLength
      omega

/-- Closed form of the 8-bit shift loop: for a positive entry value it runs
once per byte, `ceil(bitLength t / 8)` times. -/
theorem base256Iters_closed {t : Nat} (h : 0 < t) :
    base256Iters t = (bitLength t + 7) / 8 := by
  induction t using Nat.strong_induction_on with
  | _ t ih =>
    rw [base256Iters]
    by_cases h256 : t < 256
    · rw [dif_pos (Nat.div_eq_of_lt h256)]
      have hs1 : 0 < Nat.size t := Nat.size_pos.mpr h
      have hs2 : Nat.size t ≤ 8 :=
        Nat.size_le.mpr (lt_of_lt_of_le h256 (by norm_num))
      unfold bitLength
      omega
    · push_neg at h256
      have hdiv : 1 ≤ t / 256 := (Nat.one_le_div_iff (by norm_num)).mpr h256
      rw [dif_neg (by omega)]
      have hlt : t / 256 < t := Nat.div_lt_self (by omega) (by norm_num)
      rw [ih _ hlt (by omega)]
      have hsd : Nat.size (t / 256) = Nat.size t - 8 := by
        have hb : (2 : Nat) ^ 8 ≤ t := le_trans (by norm_num) h256
        have := size_div_pow hb
        simpa using this
      have hs9 : 9 ≤ Nat.size t := by
        by_contra hc
        push_neg at hc
        have ht : t < 2 ^ 8 := Nat.size_le.mp (by omega)
        have : (2 : Nat) ^ 8 = 256 := by norm_num
        omega
      unfold bitLength
      omega

/-- The accumulator form of the `Payload::len` loop over children. -/
theorem foldl_size_eq (ts : List Tag) (a : Nat) :
    ts.foldl (fun l t => l + t.size) a = a + (ts.map Tag.size).sum := by
  induction ts generalizing a with
  | nil => simp
  | cons t ts ih =>
    simp only [List.foldl_cons, List.map_cons, List.sum_cons, ih]
    omega

end common

open common

/-- C1: `UniversalTypes::from_u8` is claimed to return the typed error
`InvalidASN1` for every code outside the defined set.  The source instead
reaches `unreachable!()` there: the undefined codes 14, 15 and 31 (and any
code above 31, here 200) abort the process rather than returning an error. -/
theorem c1_undefined_codes_panic :
    UniversalTypes.from_u8 14 = PanicOr.panic ∧
    UniversalTypes.from_u8 15 = PanicOr.panic ∧
    UniversalTypes.from_u8 31 = PanicOr.panic ∧
    UniversalTypes.from_u8 200 = PanicOr.panic :=
  ⟨rfl, rfl, rfl, rfl⟩

/-- C3: `calculate_len` returns type bytes + length bytes + payload
length, with 1 type byte for Universal, 1 type byte for the other classes
up to number 127 and `1 + ceil(bitLength/7)` above it, and a length field
of 1 byte below payload length 128 and `1 + ceil(bitLength/8)` from 128
on — the claim's formula, stated over the spec-worded counts. -/
theorem c3_calculate_len_formula (t : Type') (pllen : Nat) :
    calculate_len t pllen = typeBytesSpec t.tagClass + lengthBytesSpec pllen + pllen := by
  obtain ⟨c, s⟩ := t
  have htype : typeByteCount c = typeBytesSpec c := by
    cases c with
    | Universal u => rfl
    | Application n =>
      simp only [typeByteCount, typeBytesSpec]
      by_cases hn : 127 < n
      · rw [if_pos hn, if_neg (by omega), base128Iters_closed (show 0 < n.toNat by omega)]
      · rw [if_neg hn, if_pos (by omega)]
    | ContextSpecific n =>
      simp only [typeByteCount, typeBytesSpec]
      by_cases hn : 127 < n
      · rw [if_pos hn, if_neg (by omega), base128Iters_closed (show 0 < n.toNat by omega)]
      · rw [if_neg hn, if_pos (by omega)]
    | Private n =>
      simp only [typeByteCount, typeBytesSpec]
      by_cases hn : 127 < n
      · rw [if_pos hn, if_neg (by omega), base128Iters_closed (show 0 < n.toNat by omega)]
      · rw [if_neg hn, if_pos (by omega)]
  have hlen : lengthFieldSize pllen = lengthBytesSpec pllen := by
    simp only [lengthFieldSize, lengthBytesSpec]
    by_cases hp : pllen < 128
    · rw [if_pos hp, if_pos hp]
    · rw [if_neg hp, if_neg hp, base256Iters_closed (show 0 < pllen by omega)]
      omega
  show typeByteCount c + lengthFieldSize pllen + pllen
      = typeBytesSpec c + lengthBytesSpec pllen + pllen
  rw [htype, hlen]

/-- C5: a tag built by `construct` satisfies the structural invariants by
construction — the structure field matches the payload variant, the
declared length is the payload's own computed length, and the cached size
is `calculate_len` of the tag's type and declared length. -/
theorem c5_construct_invariants (c : common.Class) (p : Payload) :
    ((construct c p)._type.tagClass = c) ∧
    ((construct c p)._type.tagStructure = Structure.Primitive ↔ ∃ v, p = Payload.Primitive v) ∧
    ((construct c p)._type.tagStructure = Structure.Constructed ↔ ∃ ts, p = Payload.Constructed ts) ∧
    ((construct c p)._length = p.len) ∧
    ((construct c p)._value = p) ∧
    ((construct c p).size = calculate_len (construct c p)._type (construct c p)._length) := by
  cases p <;> simp [construct, Tag._type, Tag._length, Tag._value, Tag.size]

set_option maxRecDepth 8192 in
/-- C6: `Payload::len` is the byte count for a primitive payload and the
sum of the children's cached total sizes (their `size` fields, full TLV
footprints) for a constructed one; in particular a Sequence holding
primitive Octet Strings of payload lengths 3 and 200 has declared length
`(1+1+3) + (1+2+200) = 208`, not `3 + 200`. -/
theorem c6_payload_len_sums_child_sizes :
    (∀ v : List Nat, (Payload.Primitive v).len = v.length) ∧
    (∀ ts : List Tag, (Payload.Constructed ts).len = (ts.map Tag.size).sum) ∧
    (construct (Class.Universal UniversalTypes.Sequence)
        (Payload.Constructed
          [construct (Class.Universal UniversalTypes.OctetString)
              (Payload.Primitive (List.replicate 3 0)),
           construct (Class.Universal UniversalTypes.OctetString)
              (Payload.Primitive (List.replicate 200 0))]))._length = 208 ∧
    (208 : Nat) ≠ 3 + 200 := by
  have h200 : base256Iters 200 = 1 := by
    rw [base256Iters]
    norm_num
  refine ⟨fun v => rfl, fun ts => ?_, ?_, by norm_num⟩
  · show ts.foldl (fun l t => l + t.size) 0 = (ts.map Tag.size).sum
    simpa using foldl_size_eq ts 0
  · have ht1 : (construct (Class.Universal UniversalTypes.OctetString)
        (Payload.Primitive (List.replicate 3 0))).size = 5 := by
      simp only [construct, Tag.size, calculate_len, typeByteCount, lengthFieldSize,
        Payload.len, List.length_replicate]
      norm_num
    have ht2 : (construct (Class.Universal UniversalTypes.OctetString)
        (Payload.Primitive (List.replicate 200 0))).size = 203 := by
      simp only [construct, Tag.size, calculate_len, typeByteCount, lengthFieldSize,
        Payload.len, List.length_replicate]
      norm_num [h200]
    show 0 + (construct (Class.Universal UniversalTypes.OctetString)
        (Payload.Primitive (List.replicate 3 0))).size
      + (construct (Class.Universal UniversalTypes.OctetString)
        (Payload.Primitive (List.replicate 200 0))).size = 208
    rw [ht1, ht2]

/-- C7: `Class::construct` is claimed to propagate the universal lookup's
failure as a returned error for class selector 0.  Selectors 1, 2 and 3
do succeed for every number, and selectors above 3 do return
`InvalidASN1`; but for selector 0 with an undefined low byte (here 14)
the call aborts inside `from_u8` instead of returning an error. -/
theorem c7_class_selector_behaviour :
    (∀ n : Int, Class.construct 1 n = PanicOr.value (Except.ok (Class.Application n))) ∧
    (∀ n : Int, Class.construct 2 n = PanicOr.value (Except.ok (Class.ContextSpecific n))) ∧
    (∀ n : Int, Class.construct 3 n = PanicOr.value (Except.ok (Class.Private n))) ∧
    Class.construct 4 7 = PanicOr.value (Except.error ASN1Error.InvalidASN1) ∧
    Class.construct 255 0 = PanicOr.value (Except.error ASN1Error.InvalidASN1) ∧
    Class.construct 0 14 = PanicOr.panic :=
  ⟨fun _ => rfl, fun _ => rfl, fun _ => rfl, rfl, rfl, rfl⟩

/-- C8: every defined universal code (0..13 and 16..30) succeeds through
`from_u8` and the returned variant's discriminant equals the code. -/
theorem c8_defined_codes_roundtrip :
    ∀ c : Nat, c < 31 → c ≠ 14 → c ≠ 15 →
      UniversalTypes.from_u8 c = PanicOr.value (Except.ok (uniOfCode c)) ∧
      (uniOfCode c).toNumber = c := by
  intro c h1 h2 h3
  interval_cases c
  all_goals first
    | exact absurd rfl h2
    | exact absurd rfl h3
    | exact ⟨rfl, rfl⟩

/-- C8 witness: the defined code 30 at a concrete input. -/
theorem c8_defined_codes_roundtrip_witness :
    UniversalTypes.from_u8 30 = PanicOr.value (Except.ok UniversalTypes.BmpString) ∧
    UniversalTypes.BmpString.toNumber = 30 :=
  c8_defined_codes_roundtrip 30 (by decide) (by decide) (by decide)

/-- C9: `Class::construct` with selector 0 looks at only the low 8 bits of
its number (the `number as u8` cast): whenever the low byte is a defined
universal code the call succeeds with that code's universal type, for any
`i64` number. -/
theorem c9_class0_uses_low_byte (n : Int) (t : UniversalTypes)
    (h : UniversalTypes.from_u8 (n.emod 256).toNat = PanicOr.value (Except.ok t)) :
    Class.construct 0 n = PanicOr.value (Except.ok (Class.Universal t)) := by
  simp only [Class.construct]
  rw [h]

/-- C9 witness: 257 is outside 0..=255 and its low byte 1 is Boolean. -/
theorem c9_class0_uses_low_byte_witness :
    Class.construct 0 257 = PanicOr.value (Except.ok (Class.Universal UniversalTypes.Boolean)) :=
  c9_class0_uses_low_byte 257 UniversalTypes.Boolean rfl

/-- C10: for every negative tag number the signed comparison `tag > 127`
is false, so `calculate_len` counts exactly one type byte for the
Application, ContextSpecific and Private classes. -/
theorem c10_negative_numbers_one_type_byte (n : Int) (s : Structure) (pl : Nat) (h : n < 0) :
    typeByteCount (Class.Application n) = 1 ∧
    typeByteCount (Class.ContextSpecific n) = 1 ∧
    typeByteCount (Class.Private n) = 1 ∧
    calculate_len ⟨Class.Application n, s⟩ pl = 1 + lengthFieldSize pl + pl := by
  have h1 : ¬ (127 : Int) < n := by omega
  refine ⟨?_, ?_, ?_, ?_⟩ <;> simp [typeByteCount, calculate_len, h1]

/-- C10 witness: number -1 at a concrete payload length. -/
theorem c10_negative_numbers_one_type_byte_witness :
    typeByteCount (Class.Application (-1)) = 1 ∧
    typeByteCount (Class.ContextSpecific (-1)) = 1 ∧
    typeByteCount (Class.Private (-1)) = 1 ∧
    calculate_len ⟨Class.Application (-1), Structure.Primitive⟩ 5 = 1 + lengthFieldSize 5 + 5 :=
  c10_negative_numbers_one_type_byte (-1) Structure.Primitive 5 (by decide)

/-- C2: the encode/decode round trip is claimed to restore every validly
constructed tag, total_size included.  For `construct(Application(31),
Primitive([]))` it does not: `construct` caches size 2 (one type byte for
number 31), the spec's encoder emits the three bytes `[0x5F, 0x1F, 0x00]`
(0x1F escape plus one continuation byte), and the spec's decoder returns
the tag with `size` 3 — the bytes actually consumed — so the decoded tag
differs from the original in its `size` field. -/
theorem c2_roundtrip_loses_size :
    c2Tag = Tag.mk ⟨Class.Application 31, Structure.Primitive⟩ 0 (Payload.Primitive []) 2 ∧
    ber.encode_single c2Tag = [95, 31, 0] ∧
    ber.decode (ber.encode_single c2Tag) =
      Except.ok (Tag.mk ⟨Class.Application 31, Structure.Primitive⟩ 0 (Payload.Primitive []) 3, 3) ∧
    (Tag.mk ⟨Class.Application 31, Structure.Primitive⟩ 0 (Payload.Primitive []) 3).size
      ≠ c2Tag.size := by
  have henc : ber.encode_single c2Tag = [95, 31, 0] := by
    simp [c2Tag, construct, Payload.len, calculate_len, typeByteCount, lengthFieldSize,
      ber.encode_single, ber.encodePayloadBytes, ber.encodeLengthBytes,
      ber.encodeTypeBytes, ber.classBits, ber.structureBit, ber.classNumber,
      ber.isUniversalClass, ber.base128Digits, ber.withContinuation]
  refine ⟨rfl, henc, ?_, by decide⟩
  rw [henc]
  rfl

/-- C4: number 30 does encode in the low five bits of a single type byte
(`[0x5E]` here, with structure bit 0 the byte is 94) and number 31 does
trigger the escape, occupying the two type bytes `[0x5F, 0x1F]` — but
`calculate_len` does not count the extra escape byte: its long-form test
is `number > 127`, so it counts one type byte for number 31 and computes
total size 2 for a tag whose encoding is 3 bytes long. -/
theorem c4_escape_bytes_not_counted :
    ber.encodeTypeBytes ⟨Class.Application 30, Structure.Primitive⟩ = [94] ∧
    ber.encodeTypeBytes ⟨Class.Application 31, Structure.Primitive⟩ = [95, 31] ∧
    typeByteCount (Class.Application 31) = 1 ∧
    calculate_len ⟨Class.Application 31, Structure.Primitive⟩ 0 = 2 ∧
    (ber.encode_single c2Tag).length = 3 := by
  refine ⟨?_, ?_, by decide, by decide, ?_⟩
  · simp [ber.encodeTypeBytes, ber.classBits, ber.structureBit, ber.classNumber,
      ber.isUniversalClass]
  · simp [ber.encodeTypeBytes, ber.classBits, ber.structureBit, ber.classNumber,
      ber.isUniversalClass, ber.base128Digits, ber.withContinuation]
  · simp [c2Tag, construct, Payload.len, calculate_len, typeByteCount, lengthFieldSize,
      ber.encode_single, ber.encodePayloadBytes, ber.encodeLengthBytes,
      ber.encodeTypeBytes, ber.classBits, ber.structureBit, ber.classNumber,
      ber.isUniversalClass, ber.base128Digits, ber.withContinuation]
